import Mathlib

/-!
Shallow embedding of the chat-agent repository (Python) in Lean 4.

The embedded code:
* `src/src/chat/models.py` — `ChatMessage`, `ChatState`;
* `src/src/chat/config.py` — `ChatConfig` with `api_key` and `validate`;
* `src/src/chat/llm_client.py` — `OpenRouterClient` (`__init__`, `generate_response`,
  `_extract_content`);
* `src/src/chat/message_handler.py` — `MessageHandler` (`process_message`,
  `_update_state_success`, `_update_state_error`);
* `src/src/chat/workflow.py` — `ChatWorkflow` (`_should_continue`, the conditional
  edge map of `create_graph`);
* `src/src/chat_agent.py` — the legacy single-file `chat_node` and
  `should_continue_chat`.

Modelling conventions:
* Python `str | None` becomes `Option String`; Python truthiness of such a value
  (`None` and `""` are falsy) is `pyTruthy`, and Python `a or b` is `pyOr`.
* The process environment is an `Env` record giving the value of the two
  environment variables the code reads (`none` when unset).
* The external chat-completion endpoint is an oracle parameter
  `invoke : ChatOpenAI → List Msg → Except String LLMContent`: the configured
  client handle and the message list are exactly what the Python code hands to
  `ChatOpenAI.invoke`; an `Except.error e` models `invoke` raising an exception
  whose `str` is `e`.
* Functions that may raise (`ChatConfig.validate`, `OpenRouterClient.__init__`)
  return `Except String _`; the raised `ValueError` message is the `error` payload.
* `_traced` variants additionally return how many times the external completion
  service was invoked, so that "does not invoke the external call" is a provable
  statement; the plain functions are their first projections.
-/

/-- `models.py`: a single chat message record with fields `type` and `content`. -/
structure ChatMessage where
  type : String
  content : String
deriving DecidableEq, Repr

/-- `models.py` / `chat_agent.py`: the workflow state. -/
structure ChatState where
  messages : List String
  chat_history : List ChatMessage
  user_input : Option String
  response : Option String
deriving DecidableEq, Repr

/-- A chat message sent to the completion endpoint (`SystemMessage` / `HumanMessage`). -/
inductive Msg where
  | system (content : String)
  | human (content : String)
deriving DecidableEq, Repr

/-- The content of a completion response: either a plain string or some other
value, carried with its `str(...)` rendering and its Python truthiness. -/
inductive LLMContent where
  | str (s : String)
  | other (asString : String) (isTruthy : Bool)
deriving DecidableEq, Repr

/-- The process environment: values of the two environment variables the code
reads, `none` when the variable is unset. -/
structure Env where
  OPENROUTER_API_KEY : Option String
  OPENAI_API_KEY : Option String
deriving DecidableEq, Repr

/-- Python truthiness of a `str | None` value: `None` and `""` are falsy. -/
def pyTruthy : Option String → Bool
  | none => false
  | some s => !s.isEmpty

/-- Python `a or b` on `str | None` values: `a` when truthy, otherwise `b`. -/
def pyOr (a b : Option String) : Option String :=
  if pyTruthy a then a else b

/-- `os.getenv` against the modelled environment. -/
def getenv (env : Env) (name : String) : Option String :=
  if name = "OPENROUTER_API_KEY" then env.OPENROUTER_API_KEY
  else if name = "OPENAI_API_KEY" then env.OPENAI_API_KEY
  else none

/-- `config.py`: the frozen `ChatConfig` dataclass. -/
structure ChatConfig where
  model : String
  temperature : ℚ
  base_url : String
  system_message : String
deriving DecidableEq, Repr

/-- The dataclass field defaults of `ChatConfig`. -/
def ChatConfig.default : ChatConfig :=
  { model := "openai/gpt-5-mini"
    temperature := 7/10
    base_url := "https://openrouter.ai/api/v1"
    system_message := "You are a helpful assistant. Keep responses concise." }

/-- `config.py` `ChatConfig.api_key` property:
`os.getenv("OPENROUTER_API_KEY") or os.getenv("OPENAI_API_KEY")`. -/
def ChatConfig.api_key (_self : ChatConfig) (env : Env) : Option String :=
  pyOr (getenv env "OPENROUTER_API_KEY") (getenv env "OPENAI_API_KEY")

/-- The `ValueError` message raised by `ChatConfig.validate`. -/
def missing_key_msg : String :=
  "OPENROUTER_API_KEY or OPENAI_API_KEY environment variable not set"

/-- `config.py` `ChatConfig.validate`: raises `ValueError` when `api_key` is falsy. -/
def ChatConfig.validate (self : ChatConfig) (env : Env) : Except String Unit :=
  if !pyTruthy (self.api_key env) then Except.error missing_key_msg
  else Except.ok ()

/-- `llm_client.py` / `chat_agent.py`: the configured `ChatOpenAI` handle. -/
structure ChatOpenAI where
  model : String
  temperature : ℚ
  api_key : String
  base_url : String
deriving DecidableEq, Repr

/-- `llm_client.py`: the `OpenRouterClient` object after `__init__`. -/
structure OpenRouterClient where
  config : ChatConfig
  llm : ChatOpenAI
deriving DecidableEq, Repr

/-- `llm_client.py` `OpenRouterClient.__init__`: validates the config (raising
`ValueError` when no key is set) and captures the key into the `ChatOpenAI`
handle via `SecretStr(config.api_key or "")`. -/
def OpenRouterClient.init (config : ChatConfig) (env : Env) :
    Except String OpenRouterClient :=
  match config.validate env with
  | Except.error e => Except.error e
  | Except.ok _ =>
      Except.ok
        { config := config
          llm :=
            { model := config.model
              temperature := config.temperature
              api_key := (config.api_key env).getD ""
              base_url := config.base_url } }

/-- `llm_client.py` `OpenRouterClient._extract_content`:
strings pass through; other content becomes `str(content) if content else ""`. -/
def extract_content : LLMContent → String
  | LLMContent.str s => s
  | LLMContent.other asString isTruthy => if isTruthy then asString else ""

/-- `llm_client.py` `OpenRouterClient.generate_response`: builds the two-message
list and invokes the stored `ChatOpenAI` handle. -/
def OpenRouterClient.generate_response
    (invoke : ChatOpenAI → List Msg → Except String LLMContent)
    (self : OpenRouterClient) (user_input system_message : String) :
    Except String String :=
  match invoke self.llm [Msg.system system_message, Msg.human user_input] with
  | Except.ok content => Except.ok (extract_content content)
  | Except.error e => Except.error e

/-- `message_handler.py`: the `MessageHandler` object. -/
structure MessageHandler where
  llm_client : OpenRouterClient
  config : ChatConfig
deriving DecidableEq, Repr

/-- `message_handler.py` `MessageHandler._update_state_success`. -/
def MessageHandler.update_state_success
    (state : ChatState) (user_input response_text : String) : ChatState :=
  { messages :=
      state.messages ++ ["User: " ++ user_input, "Assistant: " ++ response_text]
    chat_history :=
      state.chat_history ++
        [{ type := "user", content := user_input },
         { type := "assistant", content := response_text }]
    user_input := none
    response := some response_text }

/-- `message_handler.py` `MessageHandler._update_state_error`. -/
def MessageHandler.update_state_error
    (state : ChatState) (error_message : String) : ChatState :=
  { messages := state.messages ++ ["Error: " ++ error_message]
    chat_history := state.chat_history
    user_input := state.user_input
    response := some ("Error: " ++ error_message) }

/-- `message_handler.py` `MessageHandler.process_message`, instrumented with the
number of calls made to the external completion service. -/
def MessageHandler.process_message_traced
    (invoke : ChatOpenAI → List Msg → Except String LLMContent)
    (self : MessageHandler) (state : ChatState) : ChatState × Nat :=
  match state.user_input with
  | none => (state, 0)
  | some user_input =>
      if user_input.isEmpty then (state, 0)
      else
        match
          OpenRouterClient.generate_response invoke self.llm_client user_input
            self.config.system_message with
        | Except.ok response_text =>
            (MessageHandler.update_state_success state user_input response_text, 1)
        | Except.error e =>
            (MessageHandler.update_state_error state e, 1)

/-- `message_handler.py` `MessageHandler.process_message`: the resulting state. -/
def MessageHandler.process_message
    (invoke : ChatOpenAI → List Msg → Except String LLMContent)
    (self : MessageHandler) (state : ChatState) : ChatState :=
  (self.process_message_traced invoke state).1

/-- `workflow.py`: the `ChatWorkflow` object after `__init__`. -/
structure ChatWorkflow where
  config : ChatConfig
  llm_client : OpenRouterClient
  message_handler : MessageHandler
deriving DecidableEq, Repr

/-- `workflow.py` `ChatWorkflow.__init__`: defaults the config, constructs the
`OpenRouterClient` (which may raise) and then the `MessageHandler`. -/
def ChatWorkflow.init (config : Option ChatConfig) (env : Env) :
    Except String ChatWorkflow :=
  let cfg := config.getD ChatConfig.default
  match OpenRouterClient.init cfg env with
  | Except.error e => Except.error e
  | Except.ok client =>
      Except.ok
        { config := cfg
          llm_client := client
          message_handler := { llm_client := client, config := cfg } }

/-- The terminal words of the termination predicates (`workflow.py` line 48,
`chat_agent.py` line 100). -/
def terminal_words : List String := ["quit", "exit", "bye"]

/-- Python `str.lower()`, modelled character by character (the terminal words
are ASCII, for which `Char.toLower` agrees with Python). -/
def str_lower (s : String) : String :=
  String.mk (s.data.map Char.toLower)

/-- `workflow.py` `ChatWorkflow._should_continue`. -/
def ChatWorkflow.should_continue (state : ChatState) : String :=
  match state.user_input with
  | none => "end"
  | some user_input =>
      if !user_input.isEmpty && !(terminal_words.contains (str_lower user_input)) then
        "continue"
      else "end"

/-- `chat_agent.py` `should_continue_chat` (identical logic to
`ChatWorkflow._should_continue`). -/
def should_continue_chat (state : ChatState) : String :=
  match state.user_input with
  | none => "end"
  | some user_input =>
      if !user_input.isEmpty && !(terminal_words.contains (str_lower user_input)) then
        "continue"
      else "end"

/-- The targets of the compiled graph's conditional edge. -/
inductive GraphTarget where
  | chat
  | END
deriving DecidableEq, Repr

/-- The conditional-edge map passed to `add_conditional_edges` in
`workflow.py` `create_graph` and `chat_agent.py` `create_chat_agent`. -/
def conditional_edges : List (String × GraphTarget) :=
  [("continue", GraphTarget.chat), ("end", GraphTarget.END)]

/-- Routing a decision string through the conditional-edge map. -/
def route (decision : String) : Option GraphTarget :=
  conditional_edges.lookup decision

/-- `chat_agent.py` `chat_node`, instrumented with the number of calls made to
the external completion service. -/
def chat_node_traced
    (invoke : ChatOpenAI → List Msg → Except String LLMContent)
    (env : Env) (state : ChatState) : ChatState × Nat :=
  let api_key := pyOr (getenv env "OPENROUTER_API_KEY") (getenv env "OPENAI_API_KEY")
  if !pyTruthy api_key then
    let response :=
      "Error: OPENROUTER_API_KEY or OPENAI_API_KEY environment variable not set"
    ({ messages := state.messages ++ [response]
       chat_history := state.chat_history
       user_input := state.user_input
       response := some response }, 0)
  else
    match state.user_input with
    | none => (state, 0)
    | some user_input =>
        if user_input.isEmpty then (state, 0)
        else
          let llm : ChatOpenAI :=
            { model := "openai/gpt-5-mini"
              temperature := 7/10
              api_key := api_key.getD ""
              base_url := "https://openrouter.ai/api/v1" }
          match
            invoke llm
              [Msg.system "You are a helpful assistant. Keep responses concise.",
               Msg.human user_input] with
          | Except.ok content =>
              let response_text := extract_content content
              ({ messages :=
                   state.messages ++
                     ["User: " ++ user_input, "Assistant: " ++ response_text]
                 chat_history :=
                   state.chat_history ++
                     [{ type := "user", content := user_input },
                      { type := "assistant", content := response_text }]
                 user_input := none
                 response := some response_text }, 1)
          | Except.error e =>
              ({ messages := state.messages ++ ["Error: " ++ e]
                 chat_history := state.chat_history
                 user_input := state.user_input
                 response := some ("Error: " ++ e) }, 1)

/-- `chat_agent.py` `chat_node`: the resulting state. -/
def chat_node
    (invoke : ChatOpenAI → List Msg → Except String LLMContent)
    (env : Env) (state : ChatState) : ChatState :=
  (chat_node_traced invoke env state).1

/-- The empty initial session state (`run_chat_example` in `chat_agent.py`). -/
def initial_state : ChatState :=
  { messages := [], chat_history := [], user_input := none, response := none }

/-- A concrete handler for witnesses: default config, key `"test-key"`. -/
def test_handler : MessageHandler :=
  { llm_client :=
      { config := ChatConfig.default
        llm :=
          { model := "openai/gpt-5-mini"
            temperature := 7/10
            api_key := "test-key"
            base_url := "https://openrouter.ai/api/v1" } }
    config := ChatConfig.default }

/-- A stub completion oracle that always replies `"Hi"`. -/
def okHi : ChatOpenAI → List Msg → Except String LLMContent :=
  fun _ _ => Except.ok (LLMContent.str "Hi")

/-- A stub completion oracle that always raises with message `"boom"`. -/
def errBoom : ChatOpenAI → List Msg → Except String LLMContent :=
  fun _ _ => Except.error "boom"

theorem getenv_openrouter (env : Env) :
    getenv env "OPENROUTER_API_KEY" = env.OPENROUTER_API_KEY := rfl

theorem getenv_openai (env : Env) :
    getenv env "OPENAI_API_KEY" = env.OPENAI_API_KEY := rfl

theorem isEmpty_false_of_ne (u : String) (h : u ≠ "") : u.isEmpty = false := by
  cases he : u.isEmpty
  · rfl
  · exact absurd ((String.isEmpty_iff u).mp he) h

/-- C1: with a pending user input `u`, a successful completion with reply `r`
appends exactly the transcript lines "User: u" then "Assistant: r" and exactly
the history records (user, u) then (assistant, r), in that order; from the
empty initial state, input "Hello" with stubbed reply "Hi" yields transcript
["User: Hello", "Assistant: Hi"]. -/
theorem C1_success_appends_two (self : MessageHandler)
    (invoke : ChatOpenAI → List Msg → Except String LLMContent)
    (s : ChatState) (u r : String)
    (hp : s.user_input = some u) (hne : u ≠ "")
    (hok : OpenRouterClient.generate_response invoke self.llm_client u
        self.config.system_message = Except.ok r) :
    self.process_message invoke s =
      { messages := s.messages ++ ["User: " ++ u, "Assistant: " ++ r]
        chat_history := s.chat_history ++
          [{ type := "user", content := u }, { type := "assistant", content := r }]
        user_input := none
        response := some r }
    ∧ (MessageHandler.process_message okHi test_handler
        { initial_state with user_input := some "Hello" }).messages =
        ["User: Hello", "Assistant: Hi"] := by
  constructor
  · have he : u.isEmpty = false := isEmpty_false_of_ne u hne
    simp only [MessageHandler.process_message, MessageHandler.process_message_traced,
      hp, he, hok, Bool.false_eq_true, if_false]
    rfl
  · rfl

/-- C2: with a pending user input, a failing completion with message `m`
appends exactly the transcript line "Error: m", leaves the structured history
and the pending input unchanged, and sets the response field to the error
text; no other field changes. -/
theorem C2_error_appends_one (self : MessageHandler)
    (invoke : ChatOpenAI → List Msg → Except String LLMContent)
    (s : ChatState) (u m : String)
    (hp : s.user_input = some u) (hne : u ≠ "")
    (herr : OpenRouterClient.generate_response invoke self.llm_client u
        self.config.system_message = Except.error m) :
    self.process_message invoke s =
      { s with
        messages := s.messages ++ ["Error: " ++ m]
        response := some ("Error: " ++ m) } := by
  have he : u.isEmpty = false := isEmpty_false_of_ne u hne
  simp only [MessageHandler.process_message, MessageHandler.process_message_traced,
    MessageHandler.update_state_error, hp, he, herr, Bool.false_eq_true, if_false]

/-- The state used as the C3 counterexample: empty logs, user input `""`. -/
def empty_input_state : ChatState :=
  { messages := [], chat_history := [], user_input := some "", response := none }

/-- C3 counterexample: the empty string is a present latest user input that is
not case-insensitively one of the terminal words, yet the termination
predicate returns "end", not "continue" — refuting "returns continue exactly
when the input is present and not terminal". -/
theorem C3_counterexample :
    empty_input_state.user_input = some ""
    ∧ terminal_words.contains (str_lower "") = false
    ∧ ChatWorkflow.should_continue empty_input_state = "end"
    ∧ ¬ ChatWorkflow.should_continue empty_input_state = "continue" := by
  refine ⟨rfl, by decide, rfl, ?_⟩
  intro h
  exact absurd (show ("end" : String) = "continue" from h) (by decide)

/-- C3 (amended): the termination predicate returns "continue" exactly when
the latest user input is present, non-empty, and not case-insensitively one of
the terminal words, and returns "end" otherwise; it is a pure function. -/
theorem C3_amended_termination (s : ChatState) :
    (ChatWorkflow.should_continue s = "continue"
      ∨ ChatWorkflow.should_continue s = "end")
    ∧ (ChatWorkflow.should_continue s = "continue" ↔
        ∃ u, s.user_input = some u ∧ u ≠ ""
          ∧ terminal_words.contains (str_lower u) = false) := by
  obtain ⟨ms, ch, ui, resp⟩ := s
  cases ui with
  | none =>
      refine ⟨Or.inr rfl, ?_, ?_⟩
      · intro h
        exact absurd (show ("end" : String) = "continue" from h) (by decide)
      · rintro ⟨u, hu, -, -⟩
        exact Option.noConfusion hu
  | some u =>
      have hdef : ChatWorkflow.should_continue
          { messages := ms, chat_history := ch, user_input := some u,
            response := resp }
          = if (!u.isEmpty && !(terminal_words.contains (str_lower u))) = true
            then "continue" else "end" := rfl
      cases hcond : (!u.isEmpty && !(terminal_words.contains (str_lower u))) with
      | false =>
          have hend : ChatWorkflow.should_continue
              { messages := ms, chat_history := ch, user_input := some u,
                response := resp } = "end" := by
            rw [hdef, hcond]; rfl
          refine ⟨Or.inr hend, ?_, ?_⟩
          · intro h
            rw [hend] at h
            exact absurd h (by decide)
          · rintro ⟨v, hv, hvne, hvc⟩
            obtain rfl : u = v := Option.some.inj hv
            rw [isEmpty_false_of_ne u hvne, hvc] at hcond
            exact absurd hcond (by decide)
      | true =>
          have hcont : ChatWorkflow.should_continue
              { messages := ms, chat_history := ch, user_input := some u,
                response := resp } = "continue" := by
            rw [hdef, hcond]; rfl
          have h1 : u.isEmpty = false := by
            cases hie : u.isEmpty
            · rfl
            · rw [hie] at hcond; simp at hcond
          have h2 : terminal_words.contains (str_lower u) = false := by
            cases hcc : terminal_words.contains (str_lower u)
            · rfl
            · rw [h1, hcc] at hcond; exact absurd hcond (by decide)
          refine ⟨Or.inl hcont, ?_, ?_⟩
          · intro _
            exact ⟨u, rfl, fun hh => absurd (hh ▸ h1) (by decide), h2⟩
          · intro _
            exact hcont

/-- C4: from any state with a pending user input, a successful turn adds
exactly two entries to both the transcript and the structured history, while
an error turn adds exactly one transcript entry and no history entry. -/
theorem C4_lockstep_growth (self : MessageHandler)
    (invoke : ChatOpenAI → List Msg → Except String LLMContent)
    (s : ChatState) (u : String)
    (hp : s.user_input = some u) (hne : u ≠ "") :
    (∀ r, OpenRouterClient.generate_response invoke self.llm_client u
        self.config.system_message = Except.ok r →
      (self.process_message invoke s).messages.length = s.messages.length + 2
      ∧ (self.process_message invoke s).chat_history.length =
          s.chat_history.length + 2)
    ∧ (∀ m, OpenRouterClient.generate_response invoke self.llm_client u
        self.config.system_message = Except.error m →
      (self.process_message invoke s).messages.length = s.messages.length + 1
      ∧ (self.process_message invoke s).chat_history.length =
          s.chat_history.length) := by
  have he : u.isEmpty = false := isEmpty_false_of_ne u hne
  constructor
  · intro r hok
    simp [MessageHandler.process_message, MessageHandler.process_message_traced,
      MessageHandler.update_state_success, hp, he, hok]
  · intro m herr
    simp [MessageHandler.process_message, MessageHandler.process_message_traced,
      MessageHandler.update_state_error, hp, he, herr]

/-- C5: when the pending user input is absent, the turn processor returns the
state unmodified and makes no call to the external completion service; the
legacy `chat_node` does the same provided an API key is set. -/
theorem C5_absent_input_identity (s : ChatState) (hp : s.user_input = none) :
    (∀ (self : MessageHandler)
        (invoke : ChatOpenAI → List Msg → Except String LLMContent),
      self.process_message_traced invoke s = (s, 0))
    ∧ (∀ (invoke : ChatOpenAI → List Msg → Except String LLMContent) (env : Env),
        pyTruthy (pyOr env.OPENROUTER_API_KEY env.OPENAI_API_KEY) = true →
      chat_node_traced invoke env s = (s, 0)) := by
  constructor
  · intro self invoke
    simp [MessageHandler.process_message_traced, hp]
  · intro invoke env hkey
    simp [chat_node_traced, getenv_openrouter, getenv_openai, hkey, hp]

/-- C6: when neither accepted API-key environment variable is set, the missing
credential is detected eagerly: `validate` raises the configuration
`ValueError`, client construction fails with it, and the workflow (and hence
its message handler, the only caller of the completion service) is never
built. -/
theorem C6_missing_key_eager (cfg : ChatConfig) (env : Env)
    (h1 : env.OPENROUTER_API_KEY = none) (h2 : env.OPENAI_API_KEY = none) :
    cfg.validate env = Except.error missing_key_msg
    ∧ OpenRouterClient.init cfg env = Except.error missing_key_msg
    ∧ ChatWorkflow.init (some cfg) env = Except.error missing_key_msg := by
  have hkey : cfg.api_key env = none := by
    simp [ChatConfig.api_key, getenv_openrouter, getenv_openai, h1, h2, pyOr, pyTruthy]
  have hval : cfg.validate env = Except.error missing_key_msg := by
    simp [ChatConfig.validate, hkey, pyTruthy]
  refine ⟨hval, ?_, ?_⟩
  · simp [OpenRouterClient.init, hval]
  · simp [ChatWorkflow.init, OpenRouterClient.init, hval]

/-- C7: the API key is looked up under two names with OPENROUTER_API_KEY
taking priority over OPENAI_API_KEY, and is captured once at client
construction: every later completion call passes the provider the handle
holding exactly the key read at startup. -/
theorem C7_key_priority_startup_capture (cfg : ChatConfig) (env : Env) :
    (pyTruthy env.OPENROUTER_API_KEY = true →
      cfg.api_key env = env.OPENROUTER_API_KEY)
    ∧ (pyTruthy env.OPENROUTER_API_KEY = false →
      cfg.api_key env = env.OPENAI_API_KEY)
    ∧ ∀ c, OpenRouterClient.init cfg env = Except.ok c →
        c.llm.api_key = (cfg.api_key env).getD ""
        ∧ ∀ (invoke : ChatOpenAI → List Msg → Except String LLMContent)
            (u m : String),
          OpenRouterClient.generate_response invoke c u m =
            Except.map extract_content
              (invoke
                { model := cfg.model
                  temperature := cfg.temperature
                  api_key := (cfg.api_key env).getD ""
                  base_url := cfg.base_url }
                [Msg.system m, Msg.human u]) := by
  refine ⟨?_, ?_, ?_⟩
  · intro h
    simp [ChatConfig.api_key, getenv_openrouter, getenv_openai, pyOr, h]
  · intro h
    simp [ChatConfig.api_key, getenv_openrouter, getenv_openai, pyOr, h]
  · intro c hc
    cases hv : cfg.validate env with
    | error e =>
        rw [OpenRouterClient.init, hv] at hc
        exact Except.noConfusion hc
    | ok v =>
        rw [OpenRouterClient.init, hv] at hc
        obtain rfl : _ = c := Except.ok.inj hc
        refine ⟨rfl, ?_⟩
        intro invoke u m
        cases hr : invoke
            { model := cfg.model
              temperature := cfg.temperature
              api_key := (cfg.api_key env).getD ""
              base_url := cfg.base_url }
            [Msg.system m, Msg.human u] with
        | ok content =>
            simp [OpenRouterClient.generate_response, hr, Except.map]
        | error e2 =>
            simp [OpenRouterClient.generate_response, hr, Except.map]

/-- C8: a successful turn clears the pending input, so the termination
predicate on the resulting state returns "end"; a failing turn preserves the
pending input, and when that input is not case-insensitively terminal the
predicate returns "continue" and the conditional edge routes back to the chat
node. -/
theorem C8_turn_then_routing (self : MessageHandler)
    (invoke : ChatOpenAI → List Msg → Except String LLMContent)
    (s : ChatState) (u : String)
    (hp : s.user_input = some u) (hne : u ≠ "") :
    (∀ r, OpenRouterClient.generate_response invoke self.llm_client u
        self.config.system_message = Except.ok r →
      ChatWorkflow.should_continue (self.process_message invoke s) = "end")
    ∧ (∀ m, OpenRouterClient.generate_response invoke self.llm_client u
        self.config.system_message = Except.error m →
      (self.process_message invoke s).user_input = some u
      ∧ (terminal_words.contains (str_lower u) = false →
          ChatWorkflow.should_continue (self.process_message invoke s) = "continue"
          ∧ route "continue" = some GraphTarget.chat)) := by
  have he : u.isEmpty = false := isEmpty_false_of_ne u hne
  constructor
  · intro r hok
    have hps : self.process_message invoke s =
        MessageHandler.update_state_success s u r := by
      simp [MessageHandler.process_message, MessageHandler.process_message_traced,
        hp, he, hok]
    rw [hps]
    rfl
  · intro m herr
    have hpe : self.process_message invoke s =
        MessageHandler.update_state_error s m := by
      simp [MessageHandler.process_message, MessageHandler.process_message_traced,
        hp, he, herr]
    rw [hpe]
    refine ⟨?_, ?_⟩
    · simp [MessageHandler.update_state_error, hp]
    · intro hc
      have hsc : ChatWorkflow.should_continue (MessageHandler.update_state_error s m)
          = ChatWorkflow.should_continue s := rfl
      have hdef : ChatWorkflow.should_continue s
          = if (!u.isEmpty && !(terminal_words.contains (str_lower u))) = true
            then "continue" else "end" := by
        unfold ChatWorkflow.should_continue
        rw [hp]
      rw [hsc, hdef, he, hc]
      exact ⟨rfl, rfl⟩

/-- C9: with an API key set, the legacy single-file turn processor
`chat_node` and the class-based `MessageHandler.process_message` (with the
handler built by `ChatWorkflow.__init__` from the same environment) produce
value-equal output states for every input state, given the same completion
oracle. -/
theorem C9_legacy_class_equivalence (env : Env)
    (invoke : ChatOpenAI → List Msg → Except String LLMContent)
    (s : ChatState) (w : ChatWorkflow)
    (hkey : pyTruthy (pyOr env.OPENROUTER_API_KEY env.OPENAI_API_KEY) = true)
    (hw : ChatWorkflow.init none env = Except.ok w) :
    chat_node invoke env s = w.message_handler.process_message invoke s := by
  have hval : ChatConfig.default.validate env = Except.ok () := by
    simp [ChatConfig.validate, ChatConfig.api_key, getenv_openrouter,
      getenv_openai, hkey]
  rw [ChatWorkflow.init] at hw
  simp only [Option.getD_none, OpenRouterClient.init, hval] at hw
  obtain rfl : _ = w := Except.ok.inj hw
  simp only [chat_node, chat_node_traced, MessageHandler.process_message,
    MessageHandler.process_message_traced, OpenRouterClient.generate_response,
    getenv_openrouter, getenv_openai, hkey, Bool.not_true, Bool.false_eq_true,
    if_false, ChatConfig.default, ChatConfig.api_key]
  cases hs : s.user_input with
  | none => rfl
  | some u =>
      cases hu : u.isEmpty with
      | true => simp [hu]
      | false =>
          simp only [hu, Bool.false_eq_true, if_false]
          cases hr : invoke
              { model := "openai/gpt-5-mini"
                temperature := 7/10
                api_key := (pyOr env.OPENROUTER_API_KEY env.OPENAI_API_KEY).getD ""
                base_url := "https://openrouter.ai/api/v1" }
              [Msg.system "You are a helpful assistant. Keep responses concise.",
               Msg.human u] with
          | ok content => simp [hr, MessageHandler.update_state_success]
          | error e => simp [hr, MessageHandler.update_state_error, hs]

/-- C10: the empty string as latest user input (present but not a terminal
word) makes the termination predicate return "end", and the turn processor
treats it like an absent input: the state is returned unchanged and the
completion service is not invoked. -/
theorem C10_empty_string_input (s : ChatState) (hp : s.user_input = some "") :
    ChatWorkflow.should_continue s = "end"
    ∧ ∀ (self : MessageHandler)
        (invoke : ChatOpenAI → List Msg → Except String LLMContent),
      self.process_message_traced invoke s = (s, 0) := by
  constructor
  · unfold ChatWorkflow.should_continue
    rw [hp]
    rfl
  · intro self invoke
    unfold MessageHandler.process_message_traced
    rw [hp]
    rfl

/-- The session state with pending input "Hello" over empty logs. -/
def hello_state : ChatState :=
  { initial_state with user_input := some "Hello" }

/-- An environment with neither API-key variable set. -/
def empty_env : Env :=
  { OPENROUTER_API_KEY := none, OPENAI_API_KEY := none }

/-- An environment with both API-key variables set to distinct values. -/
def both_env : Env :=
  { OPENROUTER_API_KEY := some "r-key", OPENAI_API_KEY := some "o-key" }

/-- An environment with only OPENROUTER_API_KEY set. -/
def router_env : Env :=
  { OPENROUTER_API_KEY := some "r-key", OPENAI_API_KEY := none }

/-- The client that `OpenRouterClient.__init__` builds under `router_env`. -/
def router_client : OpenRouterClient :=
  { config := ChatConfig.default
    llm :=
      { model := "openai/gpt-5-mini"
        temperature := 7/10
        api_key := "r-key"
        base_url := "https://openrouter.ai/api/v1" } }

/-- The workflow that `ChatWorkflow.__init__` builds under `router_env`. -/
def router_workflow : ChatWorkflow :=
  { config := ChatConfig.default
    llm_client := router_client
    message_handler := { llm_client := router_client, config := ChatConfig.default } }

/-- Witness for C1 at the spec's own example. -/
theorem C1_witness :
    hello_state.user_input = some "Hello"
    ∧ "Hello" ≠ ""
    ∧ OpenRouterClient.generate_response okHi test_handler.llm_client "Hello"
        test_handler.config.system_message = Except.ok "Hi"
    ∧ (MessageHandler.process_message okHi test_handler hello_state =
        { messages := hello_state.messages ++ ["User: " ++ "Hello", "Assistant: " ++ "Hi"]
          chat_history := hello_state.chat_history ++
            [{ type := "user", content := "Hello" },
             { type := "assistant", content := "Hi" }]
          user_input := none
          response := some "Hi" }
      ∧ (MessageHandler.process_message okHi test_handler
          { initial_state with user_input := some "Hello" }).messages =
          ["User: Hello", "Assistant: Hi"]) :=
  ⟨rfl, by decide, rfl,
    C1_success_appends_two test_handler okHi hello_state "Hello" "Hi" rfl (by decide) rfl⟩

/-- Witness for C2 at a concrete failing turn. -/
theorem C2_witness :
    hello_state.user_input = some "Hello"
    ∧ "Hello" ≠ ""
    ∧ OpenRouterClient.generate_response errBoom test_handler.llm_client "Hello"
        test_handler.config.system_message = Except.error "boom"
    ∧ MessageHandler.process_message errBoom test_handler hello_state =
        { hello_state with
          messages := hello_state.messages ++ ["Error: " ++ "boom"]
          response := some ("Error: " ++ "boom") } :=
  ⟨rfl, by decide, rfl,
    C2_error_appends_one test_handler errBoom hello_state "Hello" "boom" rfl (by decide) rfl⟩

/-- Witness for C4 at concrete successful and failing turns. -/
theorem C4_witness :
    hello_state.user_input = some "Hello"
    ∧ "Hello" ≠ ""
    ∧ ((MessageHandler.process_message okHi test_handler hello_state).messages.length =
          hello_state.messages.length + 2
      ∧ (MessageHandler.process_message okHi test_handler hello_state).chat_history.length =
          hello_state.chat_history.length + 2)
    ∧ ((MessageHandler.process_message errBoom test_handler hello_state).messages.length =
          hello_state.messages.length + 1
      ∧ (MessageHandler.process_message errBoom test_handler hello_state).chat_history.length =
          hello_state.chat_history.length) := by
  have hok := C4_lockstep_growth test_handler okHi hello_state "Hello" rfl (by decide)
  have herr := C4_lockstep_growth test_handler errBoom hello_state "Hello" rfl (by decide)
  exact ⟨rfl, by decide, hok.1 "Hi" rfl, herr.2 "boom" rfl⟩

/-- Witness for C5 at the empty initial state. -/
theorem C5_witness :
    initial_state.user_input = none
    ∧ MessageHandler.process_message_traced okHi test_handler initial_state =
        (initial_state, 0)
    ∧ (pyTruthy (pyOr router_env.OPENROUTER_API_KEY router_env.OPENAI_API_KEY) = true
      ∧ chat_node_traced okHi router_env initial_state = (initial_state, 0)) := by
  have h := C5_absent_input_identity initial_state rfl
  exact ⟨rfl, h.1 test_handler okHi, rfl, h.2 okHi router_env rfl⟩

/-- Witness for C6 at the environment with neither variable set. -/
theorem C6_witness :
    empty_env.OPENROUTER_API_KEY = none
    ∧ empty_env.OPENAI_API_KEY = none
    ∧ ChatConfig.default.validate empty_env = Except.error missing_key_msg
    ∧ OpenRouterClient.init ChatConfig.default empty_env = Except.error missing_key_msg
    ∧ ChatWorkflow.init (some ChatConfig.default) empty_env =
        Except.error missing_key_msg := by
  have h := C6_missing_key_eager ChatConfig.default empty_env rfl rfl
  exact ⟨rfl, rfl, h.1, h.2.1, h.2.2⟩

/-- Witness for C7: with both variables set, the first takes priority. -/
theorem C7_witness :
    pyTruthy both_env.OPENROUTER_API_KEY = true
    ∧ ChatConfig.default.api_key both_env = both_env.OPENROUTER_API_KEY :=
  ⟨rfl, (C7_key_priority_startup_capture ChatConfig.default both_env).1 rfl⟩

/-- Witness for C8 at concrete successful and failing turns on input "Hello". -/
theorem C8_witness :
    hello_state.user_input = some "Hello"
    ∧ "Hello" ≠ ""
    ∧ ChatWorkflow.should_continue
        (MessageHandler.process_message okHi test_handler hello_state) = "end"
    ∧ ((MessageHandler.process_message errBoom test_handler hello_state).user_input =
          some "Hello"
      ∧ (terminal_words.contains (str_lower "Hello") = false →
          ChatWorkflow.should_continue
            (MessageHandler.process_message errBoom test_handler hello_state) = "continue"
          ∧ route "continue" = some GraphTarget.chat)) := by
  have hok := C8_turn_then_routing test_handler okHi hello_state "Hello" rfl (by decide)
  have herr := C8_turn_then_routing test_handler errBoom hello_state "Hello" rfl (by decide)
  exact ⟨rfl, by decide, hok.1 "Hi" rfl, herr.2 "boom" rfl⟩

/-- Witness for C9 under the environment with only OPENROUTER_API_KEY set. -/
theorem C9_witness :
    pyTruthy (pyOr router_env.OPENROUTER_API_KEY router_env.OPENAI_API_KEY) = true
    ∧ ChatWorkflow.init none router_env = Except.ok router_workflow
    ∧ chat_node okHi router_env hello_state =
        router_workflow.message_handler.process_message okHi hello_state :=
  ⟨rfl, rfl, C9_legacy_class_equivalence router_env okHi hello_state router_workflow rfl rfl⟩

/-- Witness for C10 at the state with pending input `""`. -/
theorem C10_witness :
    empty_input_state.user_input = some ""
    ∧ ChatWorkflow.should_continue empty_input_state = "end"
    ∧ MessageHandler.process_message_traced okHi test_handler empty_input_state =
        (empty_input_state, 0) := by
  have h := C10_empty_string_input empty_input_state rfl
  exact ⟨rfl, h.1, h.2 test_handler okHi⟩
